import Mathlib

/-!
Shallow embedding of the Swiv backend pool-resolution core.

The embedding follows the TypeScript source:
* `ContractService` (src/services/solana/contract.service.ts): each on-chain
  operation is a function from an environment of external responses to a pair
  of (list of external calls issued, result).  A call is recorded in the trace
  at the moment it is issued; its outcome is the environment's response.
* `PoolsController` / `PredictionsController` (controllers): functions over a
  mirror-store value, returning the HTTP-level result, the new mirror store and
  the trace of external calls.
* `PoolModel` / `PredictionModel` (models): pure updates of the mirror store.

Asynchronous sequential `await` chains become sequential composition with
`Except` short-circuiting; a thrown error is `Except.error`.
-/

deriving instance DecidableEq for Except

namespace Swiv

/-- Mirror-store bet status, `BetStatus` in src/models/Prediction.ts. -/
inductive BetStatus
  | initialized
  | active
  | calculated
  | claimed
deriving DecidableEq, Repr

/-- The on-chain operations submitted by `ContractService` (one constructor per
`program.methods.<op>` call site used by the pool lifecycle). -/
inductive Step
  | createPool
  | delegatePool
  | resolvePool
  | calculateWeights
  | undelegateBets
  | undelegatePool
  | finalizeWeights
deriving DecidableEq, Repr

/-- Every kind of external (network) call issued by the embedded code. -/
inductive ExtCall
  | getAccountInfo (poolId : Nat)
  | getAuthToken
  | fetchProtocol
  | fetchPoolAccount (poolId : Nat)
  | createAta
  | submit (s : Step) (poolId : Nat)
deriving DecidableEq, Repr

/-- Raw on-chain protocol account, fields as read by `getProtocol`. -/
structure RawProtocol where
  admin : String
  treasuryWallet : String
  protocolFeeBps : Nat
  paused : Bool
  totalUsers : Nat
  totalPools : Nat
  batchSettleWaitDuration : Nat
deriving DecidableEq, Repr

/-- Raw on-chain pool account, fields as read by `getPool`. -/
structure RawPool where
  poolId : Nat
  admin : String
  name : String
  tokenMint : String
  startTime : Nat
  endTime : Nat
  maxAccuracyBuffer : Nat
  convictionBonusBps : Nat
  metadata : Option String
  vaultBalance : Nat
  resolutionTarget : Option Int
  isResolved : Bool
  resolutionTs : Option Nat
  totalWeight : Option Nat
  weightFinalized : Bool
  totalParticipants : Nat
deriving DecidableEq, Repr

/-- Raw on-chain bet account, fields as read by `getBet`. -/
structure RawBet where
  owner : String
  pool : String
  deposit : Nat
  prediction : Option Int
  calculatedWeight : Option Nat
  isWeightAdded : Bool
  status : String
  creationTs : Nat
  updateCount : Nat
  endTimestamp : Option Nat
deriving DecidableEq, Repr

/-! ### Address derivation (`getPoolPDA` and friends)

The seed assembly is embedded from the source.  The SDK primitive
`PublicKey.findProgramAddressSync` is not part of this repository; it is
modelled from the spec (section 4.1) as a deterministic, pure, total map from
the seed list and program id to a `(handle, nonce)` pair. -/

/-- Byte list of an ASCII string, `Buffer.from(s)` for the seed constants. -/
def strBytes (s : String) : List Nat :=
  s.data.map Char.toNat

def seedProtocol : List Nat := strBytes "protocol_v2"

def seedPool : List Nat := strBytes "pool"

def seedBet : List Nat := strBytes "bet"

def seedPoolVault : List Nat := strBytes "pool_vault"

/-- Embeds `new BN(n).toBuffer` with little-endian layout: `n` as `width` bytes. -/
def bnLeBytes (width n : Nat) : List Nat :=
  (List.range width).map (fun i => n / 256 ^ i % 256)

/-- Modelled from the spec: the domain-separation marker the SDK appends to the
seed material when hashing. -/
def pdaMarker : List Nat := strBytes "ProgramDerivedAddress"

/-- Modelled from the spec: one mixing round of the stand-in hash used by the
model of the SDK derivation primitive. -/
def mixBytes (acc b : Nat) : Nat :=
  (acc * 131 + b + 1) % 2 ^ 256

/-- Modelled from the spec: `PublicKey.findProgramAddressSync` (external SDK,
not part of this repository).  Per section 4.1 of the spec it is a
deterministic, pure, total map `(seeds, programId) -> (handle, nonce)`. -/
def findProgramAddressSync (seeds : List (List Nat)) (programId : List Nat) :
    List Nat × Nat :=
  let material := seeds.flatten ++ programId ++ pdaMarker ++ [255]
  (bnLeBytes 32 (material.foldl mixBytes 0), 255)

/-- Model constant: the deployed program id (configuration, read at startup). -/
def programIdBytes : List Nat := strBytes "swiv_privacy_program_id"

/-- Model constant: the public key of the authority keypair loaded at startup. -/
def authorityBytes : List Nat := strBytes "swiv_admin_authority_key"

/-- Embeds `ContractService.getProtocolPDA`. -/
def getProtocolPDA : List Nat × Nat :=
  findProgramAddressSync [seedProtocol] programIdBytes

/-- Embeds `ContractService.getPoolPDA`: seeds `[SEED_POOL, admin, poolId as LE u64]`. -/
def getPoolPDA (admin : List Nat) (poolId : Nat) : List Nat × Nat :=
  findProgramAddressSync [seedPool, admin, bnLeBytes 8 poolId] programIdBytes

/-- Embeds `ContractService.getPoolVaultPDA`: seeds `[SEED_POOL_VAULT, pool]`. -/
def getPoolVaultPDA (poolPubkey : List Nat) : List Nat × Nat :=
  findProgramAddressSync [seedPoolVault, poolPubkey] programIdBytes

/-- Embeds `ContractService.getBetPDA`: seeds `[SEED_BET, pool, user]`. -/
def getBetPDA (poolPubkey userPubkey : List Nat) : List Nat × Nat :=
  findProgramAddressSync [seedBet, poolPubkey, userPubkey] programIdBytes

/-! ### The saga environment and the six resolution steps -/

/-- Responses of the external world, one field per external call site inside
the six `ContractService` methods driven by `completePoolResolution`. -/
structure ChainEnv where
  delegateAccountInfo : Except String String
  delegateSubmit : Except String String
  resolveAuth : Except String String
  resolveSubmit : Except String String
  calcAuth : Except String String
  calcSubmit : Except String String
  undelegateBetsAuth : Except String String
  undelegateBetsSubmit : Except String String
  undelegatePoolAuth : Except String String
  undelegatePoolSubmit : Except String String
  finalizeProtocolFetch : Except String RawProtocol
  finalizePoolFetch : Except String RawPool
  finalizeAta : Except String String
  finalizeSubmit : Except String String
deriving DecidableEq, Repr

/-- Embeds `ContractService.delegatePool`: reads the pool account info (logged), then
submits `delegatePool` on L1. -/
def svcDelegatePool (env : ChainEnv) (poolId : Nat) :
    List ExtCall × Except String String :=
  match env.delegateAccountInfo with
  | .error e => ([.getAccountInfo poolId], .error e)
  | .ok _ => ([.getAccountInfo poolId, .submit .delegatePool poolId], env.delegateSubmit)

/-- Embeds `ContractService.resolvePool`: obtains a TEE auth token, then submits
`resolvePool(finalOutcome)` against the enclave endpoint. -/
def svcResolvePool (env : ChainEnv) (poolId : Nat) (finalOutcome : Int) :
    List ExtCall × Except String String :=
  match env.resolveAuth with
  | .error e => ([.getAuthToken], .error e)
  | .ok _ =>
    let _ := finalOutcome
    ([.getAuthToken, .submit .resolvePool poolId], env.resolveSubmit)

/-- Embeds `ContractService.batchCalculateWeights`: TEE auth token, then submit
`batchCalculateWeights` with the bet accounts. -/
def svcBatchCalculateWeights (env : ChainEnv) (poolId : Nat)
    (betPubkeys : List String) : List ExtCall × Except String String :=
  match env.calcAuth with
  | .error e => ([.getAuthToken], .error e)
  | .ok _ =>
    let _ := betPubkeys
    ([.getAuthToken, .submit .calculateWeights poolId], env.calcSubmit)

/-- Embeds `ContractService.batchUndelegateBets`: TEE auth token, then submit
`batchUndelegateBets` with the bet accounts. -/
def svcBatchUndelegateBets (env : ChainEnv) (poolId : Nat)
    (betPubkeys : List String) : List ExtCall × Except String String :=
  match env.undelegateBetsAuth with
  | .error e => ([.getAuthToken], .error e)
  | .ok _ =>
    let _ := betPubkeys
    ([.getAuthToken, .submit .undelegateBets poolId], env.undelegateBetsSubmit)

/-- Embeds `ContractService.undelegatePool`: TEE auth token, then submit
`undelegatePool` against the enclave endpoint. -/
def svcUndelegatePool (env : ChainEnv) (poolId : Nat) :
    List ExtCall × Except String String :=
  match env.undelegatePoolAuth with
  | .error e => ([.getAuthToken], .error e)
  | .ok _ => ([.getAuthToken, .submit .undelegatePool poolId], env.undelegatePoolSubmit)

/-- Embeds `ContractService.finalizeWeights`: fetches the protocol account, fetches
the pool account (only logged: its `weightFinalized` flag is NOT consulted),
creates the treasury token account, then submits `finalizeWeights` on L1. -/
def svcFinalizeWeights (env : ChainEnv) (poolId : Nat) (tokenMint : String) :
    List ExtCall × Except String String :=
  match env.finalizeProtocolFetch with
  | .error e => ([.fetchProtocol], .error e)
  | .ok _ =>
    match env.finalizePoolFetch with
    | .error e => ([.fetchProtocol, .fetchPoolAccount poolId], .error e)
    | .ok _ =>
      match env.finalizeAta with
      | .error e => ([.fetchProtocol, .fetchPoolAccount poolId, .createAta], .error e)
      | .ok _ =>
        let _ := tokenMint
        ([.fetchProtocol, .fetchPoolAccount poolId, .createAta,
          .submit .finalizeWeights poolId], env.finalizeSubmit)

/-- The six confirmation ids returned by a fully successful resolution flow. -/
structure ResolutionSigs where
  delegatePoolSignature : String
  resolveSignature : String
  calculateWeightsSignature : String
  undelegateBetsSignature : String
  undelegatePoolSignature : String
  finalizeSignature : String
deriving DecidableEq, Repr

/-- Embeds `ContractService.completePoolResolution`: the six steps, each awaited in
sequence; a thrown error aborts the rest of the chain. -/
def completePoolResolution (env : ChainEnv) (poolId : Nat) (finalOutcome : Int)
    (betPubkeys : List String) (tokenMint : String) :
    List ExtCall × Except String ResolutionSigs :=
  let d := svcDelegatePool env poolId
  match d.2 with
  | .error e => (d.1, .error e)
  | .ok s1 =>
    let r := svcResolvePool env poolId finalOutcome
    match r.2 with
    | .error e => (d.1 ++ r.1, .error e)
    | .ok s2 =>
      let c := svcBatchCalculateWeights env poolId betPubkeys
      match c.2 with
      | .error e => (d.1 ++ r.1 ++ c.1, .error e)
      | .ok s3 =>
        let ub := svcBatchUndelegateBets env poolId betPubkeys
        match ub.2 with
        | .error e => (d.1 ++ r.1 ++ c.1 ++ ub.1, .error e)
        | .ok s4 =>
          let up := svcUndelegatePool env poolId
          match up.2 with
          | .error e => (d.1 ++ r.1 ++ c.1 ++ ub.1 ++ up.1, .error e)
          | .ok s5 =>
            let f := svcFinalizeWeights env poolId tokenMint
            match f.2 with
            | .error e => (d.1 ++ r.1 ++ c.1 ++ ub.1 ++ up.1 ++ f.1, .error e)
            | .ok s6 =>
              (d.1 ++ r.1 ++ c.1 ++ ub.1 ++ up.1 ++ f.1,
               .ok ⟨s1, s2, s3, s4, s5, s6⟩)

/-- Projection of a trace to the submitted on-chain operations. -/
def submits : List ExtCall → List Step
  | [] => []
  | .submit s _ :: t => s :: submits t
  | .getAccountInfo _ :: t => submits t
  | .getAuthToken :: t => submits t
  | .fetchProtocol :: t => submits t
  | .fetchPoolAccount _ :: t => submits t
  | .createAta :: t => submits t

/-- The required order of the six external resolution steps. -/
def stepOrder : List Step :=
  [.delegatePool, .resolvePool, .calculateWeights, .undelegateBets,
   .undelegatePool, .finalizeWeights]

/-- The submit response the environment holds for a given saga step. -/
def stepSubmitResult (env : ChainEnv) : Step → Except String String
  | .createPool => .error "not part of the resolution saga"
  | .delegatePool => env.delegateSubmit
  | .resolvePool => env.resolveSubmit
  | .calculateWeights => env.calcSubmit
  | .undelegateBets => env.undelegateBetsSubmit
  | .undelegatePool => env.undelegatePoolSubmit
  | .finalizeWeights => env.finalizeSubmit

/-! ### Mirror store (`PoolModel`, `PredictionModel`) -/

/-- Mirror pools row, `Pool` interface in src/models/Pool.ts, together with the
request-supplied prediction range stored by the pools controller.  Timestamp
columns are carried as natural numbers of milliseconds. -/
structure MirrorPool where
  id : String
  pool_id : Nat
  admin : String
  name : String
  token_mint : String
  start_time : Nat
  end_time : Nat
  vault_balance : Nat
  max_accuracy_buffer : Nat
  conviction_bonus_bps : Nat
  min_prediction : Int
  max_prediction : Int
  metadata : Option String
  pool_pubkey : List Nat
  vault_pubkey : List Nat
  resolution_target : Int
  is_resolved : Bool
  resolution_ts : Nat
  total_weight : String
  weight_finalized : Bool
  total_participants : Nat
  status : String
  last_synced_ms : Nat
deriving DecidableEq, Repr

/-- Mirror predictions row, `UserBet` interface in src/models/Prediction.ts. -/
structure MirrorBet where
  id : String
  user_wallet : String
  pool_pubkey : List Nat
  request_id : String
  pool_id : Nat
  deposit : Nat
  prediction : Option Int
  calculated_weight : String
  is_weight_added : Bool
  status : BetStatus
  creation_ts : Nat
  update_count : Nat
  end_timestamp : Nat
  bet_pubkey : String
  reward : Option Nat
  claim_tx : Option String
  claimed : Bool
  claimed_at_ms : Option Nat
  last_synced_ms : Nat
deriving DecidableEq, Repr

/-- The mirror store: the pools and predictions tables. -/
structure Mirror where
  pools : List MirrorPool
  predictions : List MirrorBet
deriving DecidableEq, Repr

/-- Embeds `PoolModel.findById`. -/
def poolFindById (db : Mirror) (id : String) : Option MirrorPool :=
  db.pools.find? (fun p => p.id = id)

/-- The row update applied by `PoolModel.updateResolution`. -/
def updateResolutionRow (target : Int) (status : String) (nowMs : Nat)
    (p : MirrorPool) : MirrorPool :=
  { p with
    resolution_target := target
    is_resolved := true
    status := status
    resolution_ts := nowMs / 1000
    last_synced_ms := nowMs }

/-- Embeds `PoolModel.updateResolution`: set the resolution target, mark resolved,
set the status and stamp a locally computed resolution timestamp. -/
def poolUpdateResolution (db : Mirror) (id : String) (target : Int)
    (status : String) (nowMs : Nat) : Mirror :=
  { db with
    pools := db.pools.map (fun p =>
      if p.id = id then updateResolutionRow target status nowMs p else p) }

/-- Embeds `PredictionModel.findById`. -/
def predFindById (db : Mirror) (id : String) : Option MirrorBet :=
  db.predictions.find? (fun b => b.id = id)

/-- Embeds `PredictionModel.findByPoolId` / `findByPool`. -/
def predFindByPoolId (db : Mirror) (poolId : Nat) : List MirrorBet :=
  db.predictions.filter (fun b => b.pool_id = poolId)

/-- The row update applied by `PredictionModel.updateStatus`. -/
def setStatusRow (st : BetStatus) (nowMs : Nat) (b : MirrorBet) : MirrorBet :=
  { b with status := st, last_synced_ms := nowMs }

/-- Embeds `PredictionModel.updateBetStatus` / `updateStatus`. -/
def predUpdateStatus (db : Mirror) (id : String) (st : BetStatus)
    (nowMs : Nat) : Mirror :=
  { db with
    predictions := db.predictions.map (fun b =>
      if b.id = id then setStatusRow st nowMs b else b) }

/-- JavaScript truthiness of an optional string (`if (claimTx)`). -/
def jsStrTruthy : Option String → Bool
  | none => false
  | some s => !(s == "")

/-- JavaScript falsiness of an optional string (`if (!userWallet)`). -/
def jsFalsyStr (o : Option String) : Bool :=
  !(jsStrTruthy o)

/-- JavaScript `x || d` for an optional number (`0` is falsy). -/
def jsOrDefaultNat (o : Option Nat) (d : Nat) : Nat :=
  match o with
  | none => d
  | some v => if v = 0 then d else v

/-- JavaScript `metadata || null` for an optional string. -/
def jsStrOrNone : Option String → Option String
  | none => none
  | some s => if s = "" then none else some s

/-- The row update applied by `PredictionModel.claimReward`: status claimed,
claimed flag, the caller-supplied reward, and, when a claim transaction
signature is truthy, the signature and a claimed-at stamp. -/
def claimRewardRow (reward : Nat) (claimTx : Option String) (nowMs : Nat)
    (b : MirrorBet) : MirrorBet :=
  let b1 := { b with
    status := BetStatus.claimed
    claimed := true
    reward := some reward
    last_synced_ms := nowMs }
  if jsStrTruthy claimTx then
    { b1 with claim_tx := claimTx, claimed_at_ms := some nowMs }
  else b1

/-- Embeds `PredictionModel.claimReward`: update the row and return it. -/
def predClaimReward (db : Mirror) (id : String) (reward : Nat)
    (claimTx : Option String) (nowMs : Nat) : Mirror × Option MirrorBet :=
  let rows := db.predictions.map (fun b =>
    if b.id = id then claimRewardRow reward claimTx nowMs b else b)
  ({ db with predictions := rows }, rows.find? (fun b => b.id = id))

/-! ### Controllers -/

/-- HTTP-level error (`AppError`): message and status code. -/
structure AppError where
  message : String
  status : Nat
deriving DecidableEq, Repr

/-- Request body of `POST /api/predictions/:id/claim`. -/
structure ClaimReq where
  userWallet : Option String
  claimTxSignature : Option String
  rewardAmount : Option Nat
deriving DecidableEq, Repr

/-- JavaScript `rewardAmount || 0`. -/
def jsOrZero : Option Nat → Nat
  | none => 0
  | some v => v

/-- Embeds `PredictionsController.claimReward`: validate, guard on the mirrored bet
status, then persist the claim with the client-supplied reward amount. -/
def ctrlClaimReward (betId : String) (req : ClaimReq) (db : Mirror)
    (nowMs : Nat) : Except AppError MirrorBet × Mirror :=
  match req.userWallet, req.claimTxSignature with
  | some uw, some tx =>
    if uw = "" ∨ tx = "" then
      (.error ⟨"userWallet and claimTxSignature are required", 400⟩, db)
    else
      match predFindById db betId with
      | none => (.error ⟨"Bet not found", 404⟩, db)
      | some bet =>
        if bet.user_wallet ≠ uw then
          (.error ⟨"Unauthorized", 403⟩, db)
        else if bet.status = BetStatus.claimed then
          (.error ⟨"Reward already claimed", 400⟩, db)
        else if bet.status ≠ BetStatus.calculated then
          (.error ⟨"Bet must be calculated before claiming reward", 400⟩, db)
        else
          match predClaimReward db betId (jsOrZero req.rewardAmount) (some tx) nowMs with
          | (db1, some updated) => (.ok updated, db1)
          | (db1, none) => (.error ⟨"Row not found after update", 500⟩, db1)
  | _, _ => (.error ⟨"userWallet and claimTxSignature are required", 400⟩, db)

/-- Embeds `PoolsController.resolvePool`: local validation, then the six-step saga,
then the mirror writes (`updateResolution` and the per-bet status loop). -/
def ctrlResolvePool (reqId : String) (finalOutcome : Option Int) (db : Mirror)
    (nowMs : Nat) (env : ChainEnv) :
    Except AppError Unit × Mirror × List ExtCall :=
  match finalOutcome with
  | none => (.error ⟨"finalOutcome is required", 400⟩, db, [])
  | some outcome =>
    match poolFindById db reqId with
    | none => (.error ⟨"Pool not found", 404⟩, db, [])
    | some pool =>
      if pool.end_time * 1000 > nowMs then
        (.error ⟨"Pool end time has not been reached yet", 400⟩, db, [])
      else if pool.is_resolved then
        (.error ⟨"Pool already resolved", 400⟩, db, [])
      else
        let predictions := predFindByPoolId db pool.pool_id
        let betPubkeys := (predictions.filter
          (fun p => p.bet_pubkey.length > 0)).map (fun p => p.bet_pubkey)
        match completePoolResolution env pool.pool_id outcome betPubkeys pool.token_mint with
        | (t, .error e) =>
          (.error ⟨"Failed to resolve pool on-chain: " ++ e, 500⟩, db, t)
        | (t, .ok _sigs) =>
          let db1 := poolUpdateResolution db pool.id outcome "resolved" nowMs
          let db2 := predictions.foldl
            (fun d pr => predUpdateStatus d pr.id BetStatus.calculated nowMs) db1
          (.ok (), db2, t)

/-! ### Pool creation -/

/-- Request body of `POST /api/pools` (date strings already parsed to epoch
milliseconds, as `new Date(x).getTime()` does). -/
structure CreatePoolReq where
  name : Option String
  metadata : Option String
  startTimeMs : Option Nat
  endTimeMs : Option Nat
  maxAccuracyBuffer : Option Nat
  convictionBonusBps : Option Nat
  minPrediction : Option Int
  maxPrediction : Option Int
  creator : String
deriving DecidableEq, Repr

/-- External responses for the calls inside `ContractService.createPool`. -/
structure CreateEnv where
  protocolFetch : Except String RawProtocol
  ata : Except String String
  createSubmit : Except String String
deriving DecidableEq, Repr

/-- Return value of `ContractService.createPool`. -/
structure CreateResult where
  signature : String
  poolId : Nat
  poolPubkey : List Nat
  vaultPubkey : List Nat
deriving DecidableEq, Repr

/-- Embeds `ContractService.createPool`: fetch the protocol account to read the next
ledger-assigned pool id (`protocolData.totalPools`), derive the PDAs, create
the admin token account, then submit `createPool`. -/
def svcCreatePool (env : CreateEnv) (authority : List Nat) :
    List ExtCall × Except String CreateResult :=
  match env.protocolFetch with
  | .error e => ([.fetchProtocol], .error e)
  | .ok proto =>
    let poolId := proto.totalPools
    let pool := (getPoolPDA authority poolId).1
    let vault := (getPoolVaultPDA pool).1
    match env.ata with
    | .error e => ([.fetchProtocol, .createAta], .error e)
    | .ok _ =>
      ([.fetchProtocol, .createAta, .submit .createPool poolId],
        match env.createSubmit with
        | .error e => .error e
        | .ok sig => .ok ⟨sig, poolId, pool, vault⟩)

/-- Model constant: the configured default token mint (env.TOKEN_MINT). -/
def defaultTokenMint : String := "swiv_default_token_mint"

/-- Embeds `PoolsController.createPool`: request validation, on-chain create, and only
on ledger success the mirror insert with the ledger-assigned pool id.
`freshId` stands for the database-generated row id. -/
def ctrlCreatePool (req : CreatePoolReq) (db : Mirror) (nowMs : Nat)
    (env : CreateEnv) (freshId : String) :
    Except AppError MirrorPool × Mirror × List ExtCall :=
  if jsFalsyStr req.name || req.startTimeMs.isNone || req.endTimeMs.isNone then
    (.error ⟨"Missing required fields: name, startTime, endTime", 400⟩, db, [])
  else if req.minPrediction.isNone || req.maxPrediction.isNone then
    (.error ⟨"Missing required fields: minPrediction, maxPrediction", 400⟩, db, [])
  else if req.minPrediction.getD 0 ≥ req.maxPrediction.getD 0 then
    (.error ⟨"minPrediction must be less than maxPrediction", 400⟩, db, [])
  else
    let startTimestamp := req.startTimeMs.getD 0 / 1000
    let endTimestamp := req.endTimeMs.getD 0 / 1000
    if startTimestamp ≥ endTimestamp then
      (.error ⟨"Start time must be before end time", 400⟩, db, [])
    else if endTimestamp ≤ nowMs / 1000 then
      (.error ⟨"End time must be in the future", 400⟩, db, [])
    else
      let maxAccuracyBuf := jsOrDefaultNat req.maxAccuracyBuffer 500
      let convictionBonus := jsOrDefaultNat req.convictionBonusBps 1000
      match svcCreatePool env authorityBytes with
      | (t, .error e) =>
        (.error ⟨"Failed to create pool on blockchain: " ++ e, 500⟩, db, t)
      | (t, .ok r) =>
        let row : MirrorPool := {
          id := freshId
          pool_id := r.poolId
          admin := req.creator
          name := req.name.getD ""
          token_mint := defaultTokenMint
          start_time := startTimestamp
          end_time := endTimestamp
          vault_balance := 0
          max_accuracy_buffer := maxAccuracyBuf
          conviction_bonus_bps := convictionBonus
          min_prediction := req.minPrediction.getD 0
          max_prediction := req.maxPrediction.getD 0
          metadata := jsStrOrNone req.metadata
          pool_pubkey := r.poolPubkey
          vault_pubkey := r.vaultPubkey
          resolution_target := 0
          is_resolved := false
          resolution_ts := 0
          total_weight := "0"
          weight_finalized := false
          total_participants := 0
          status := "active"
          last_synced_ms := 0 }
        (.ok row, { db with pools := db.pools ++ [row] }, t)

/-! ### On-chain read operations (`getProtocol`, `getPool`, `getBet`) -/

/-- Decoded protocol state returned by `ContractService.getProtocol`. -/
structure ProtocolView where
  admin : String
  treasuryWallet : String
  protocolFeeBps : Nat
  paused : Bool
  totalUsers : Nat
  totalPools : Nat
  batchSettleWaitDuration : Nat
deriving DecidableEq, Repr

/-- Decoded pool state returned by `ContractService.getPool`. -/
structure PoolView where
  poolId : Nat
  admin : String
  name : String
  tokenMint : String
  startTime : Nat
  endTime : Nat
  maxAccuracyBuffer : Nat
  convictionBonusBps : Nat
  metadata : Option String
  vaultBalance : Nat
  resolutionTarget : Option Int
  isResolved : Bool
  resolutionTs : Option Nat
  totalWeight : String
  weightFinalized : Bool
  totalParticipants : Nat
deriving DecidableEq, Repr

/-- Decoded bet state returned by `ContractService.getBet`. -/
structure BetView where
  owner : String
  pool : String
  deposit : Nat
  prediction : Option Int
  calculatedWeight : String
  isWeightAdded : Bool
  status : String
  creationTs : Nat
  updateCount : Nat
  endTimestamp : Option Nat
deriving DecidableEq, Repr

/-- JavaScript `x?.toNumber() || null` on an optional integer (`0` is falsy
and collapses to `null`). -/
def jsNumOrNullInt : Option Int → Option Int
  | none => none
  | some v => if v = 0 then none else some v

/-- JavaScript `x?.toNumber() || null` on an optional natural. -/
def jsNumOrNullNat : Option Nat → Option Nat
  | none => none
  | some v => if v = 0 then none else some v

/-- JavaScript `x?.toString() || '0'` on an optional big number. -/
def jsStrOrZero : Option Nat → String
  | none => "0"
  | some w => toString w

/-- Embeds `ContractService.getProtocol`: any fetch failure is caught and returned as
null; a successful fetch is decoded field by field. -/
def getProtocol (fetch : Except String RawProtocol) : Option ProtocolView :=
  match fetch with
  | .error _ => none
  | .ok d => some {
      admin := d.admin
      treasuryWallet := d.treasuryWallet
      protocolFeeBps := d.protocolFeeBps
      paused := d.paused
      totalUsers := d.totalUsers
      totalPools := d.totalPools
      batchSettleWaitDuration := d.batchSettleWaitDuration }

/-- Embeds `ContractService.getPool`: any fetch failure is caught and returned as
null; a successful fetch is decoded field by field. -/
def getPoolView (fetch : Except String RawPool) : Option PoolView :=
  match fetch with
  | .error _ => none
  | .ok d => some {
      poolId := d.poolId
      admin := d.admin
      name := d.name
      tokenMint := d.tokenMint
      startTime := d.startTime
      endTime := d.endTime
      maxAccuracyBuffer := d.maxAccuracyBuffer
      convictionBonusBps := d.convictionBonusBps
      metadata := d.metadata
      vaultBalance := d.vaultBalance
      resolutionTarget := jsNumOrNullInt d.resolutionTarget
      isResolved := d.isResolved
      resolutionTs := jsNumOrNullNat d.resolutionTs
      totalWeight := jsStrOrZero d.totalWeight
      weightFinalized := d.weightFinalized
      totalParticipants := d.totalParticipants }

/-- Embeds `ContractService.getBet`: any fetch failure is caught and returned as
null; a successful fetch is decoded field by field. -/
def getBetView (fetch : Except String RawBet) : Option BetView :=
  match fetch with
  | .error _ => none
  | .ok d => some {
      owner := d.owner
      pool := d.pool
      deposit := d.deposit
      prediction := jsNumOrNullInt d.prediction
      calculatedWeight := jsStrOrZero d.calculatedWeight
      isWeightAdded := d.isWeightAdded
      status := d.status
      creationTs := d.creationTs
      updateCount := d.updateCount
      endTimestamp := jsNumOrNullNat d.endTimestamp }

/-- Embeds `ProtocolController.getProtocolState`: a null protocol read is surfaced as
a 404, i.e. the caller treats any null as non-existence. -/
def ctrlGetProtocolState (fetch : Except String RawProtocol) :
    Except AppError ProtocolView :=
  match getProtocol fetch with
  | none => .error ⟨"Protocol not initialized", 404⟩
  | some s => .ok s

/-! ### Concrete fixtures used by witnesses and counterexamples -/

/-- A sample raw protocol account snapshot. -/
def rawProtocolA : RawProtocol :=
  { admin := "adminKey"
    treasuryWallet := "treasuryKey"
    protocolFeeBps := 300
    paused := false
    totalUsers := 10
    totalPools := 4
    batchSettleWaitDuration := 60 }

/-- A sample raw pool account snapshot on which the weights are already
finalized (`weightFinalized == true`). -/
def rawPoolFinalized : RawPool :=
  { poolId := 1
    admin := "adminKey"
    name := "BTC pool"
    tokenMint := "mintKey"
    startTime := 10
    endTime := 100
    maxAccuracyBuffer := 500
    convictionBonusBps := 1000
    metadata := none
    vaultBalance := 5000
    resolutionTarget := some 42
    isResolved := true
    resolutionTs := some 120
    totalWeight := some 900
    weightFinalized := true
    totalParticipants := 2 }

/-- A saga environment in which every external call succeeds; the fetched pool
snapshot inside `finalizeWeights` already shows `weightFinalized == true`. -/
def envAllOk : ChainEnv :=
  { delegateAccountInfo := .ok "accInfo"
    delegateSubmit := .ok "sigDelegate"
    resolveAuth := .ok "token"
    resolveSubmit := .ok "sigResolve"
    calcAuth := .ok "token"
    calcSubmit := .ok "sigCalc"
    undelegateBetsAuth := .ok "token"
    undelegateBetsSubmit := .ok "sigUndelegateBets"
    undelegatePoolAuth := .ok "token"
    undelegatePoolSubmit := .ok "sigUndelegatePool"
    finalizeProtocolFetch := .ok rawProtocolA
    finalizePoolFetch := .ok rawPoolFinalized
    finalizeAta := .ok "treasuryAta"
    finalizeSubmit := .ok "sigFinalize" }

/-- A saga environment in which the delegate-pool step succeeds but the
resolve step is rejected by the enclave; everything later would succeed. -/
def envHaltAtResolve : ChainEnv :=
  { envAllOk with resolveSubmit := .error "RejectedByLedger" }

/-- A saga environment in which delegate pool and resolve succeed but the
weight-calculation step times out. -/
def envHaltAtCalc : ChainEnv :=
  { envAllOk with calcSubmit := .error "NetworkUnavailable" }

/-- A sample mirror pool row, active and unresolved, with its end time
(seconds 100, i.e. ms 100000) in the past relative to `nowMs = 1000000`. -/
def poolFx : MirrorPool :=
  { id := "p1"
    pool_id := 1
    admin := "adminKey"
    name := "BTC pool"
    token_mint := "mintKey"
    start_time := 10
    end_time := 100
    vault_balance := 5000
    max_accuracy_buffer := 500
    conviction_bonus_bps := 1000
    min_prediction := 0
    max_prediction := 100000
    metadata := none
    pool_pubkey := []
    vault_pubkey := []
    resolution_target := 0
    is_resolved := false
    resolution_ts := 0
    total_weight := "0"
    weight_finalized := false
    total_participants := 2
    status := "active"
    last_synced_ms := 0 }

/-- A sample mirror bet row on pool 1, active, with no reward. -/
def betFx : MirrorBet :=
  { id := "b1"
    user_wallet := "walletA"
    pool_pubkey := []
    request_id := "req1"
    pool_id := 1
    deposit := 100
    prediction := none
    calculated_weight := "0"
    is_weight_added := false
    status := .active
    creation_ts := 50
    update_count := 0
    end_timestamp := 100
    bet_pubkey := "betKey1"
    reward := none
    claim_tx := none
    claimed := false
    claimed_at_ms := none
    last_synced_ms := 0 }

/-- A sample mirror store holding the expired unresolved pool 1 and one bet. -/
def dbFx1 : Mirror := ⟨[poolFx], [betFx]⟩

/-! ## Theorems -/

/-- C1: for every invocation of the pool-resolution flow, the six external
steps are submitted strictly in the order delegate pool, resolve, calculate
weights, undelegate bets, undelegate pool, finalize weights: the submit trace
is always a prefix of that order, it is the full order exactly when the flow
returns successfully, and a step's submit appears only when the submit of the
step immediately before it returned successfully, so once a step throws no
subsequent step is issued. -/
theorem completePoolResolution_step_order
    (env : ChainEnv) (pid : Nat) (out : Int) (bets : List String) (mint : String) :
    submits (completePoolResolution env pid out bets mint).1 ∈
      [stepOrder.take 0, stepOrder.take 1, stepOrder.take 2, stepOrder.take 3,
       stepOrder.take 4, stepOrder.take 5, stepOrder] ∧
    ((∃ sigs, (completePoolResolution env pid out bets mint).2 = Except.ok sigs) →
      submits (completePoolResolution env pid out bets mint).1 = stepOrder) ∧
    (Step.resolvePool ∈ submits (completePoolResolution env pid out bets mint).1 →
      ∃ v, env.delegateSubmit = Except.ok v) ∧
    (Step.calculateWeights ∈ submits (completePoolResolution env pid out bets mint).1 →
      ∃ v, env.resolveSubmit = Except.ok v) ∧
    (Step.undelegateBets ∈ submits (completePoolResolution env pid out bets mint).1 →
      ∃ v, env.calcSubmit = Except.ok v) ∧
    (Step.undelegatePool ∈ submits (completePoolResolution env pid out bets mint).1 →
      ∃ v, env.undelegateBetsSubmit = Except.ok v) ∧
    (Step.finalizeWeights ∈ submits (completePoolResolution env pid out bets mint).1 →
      ∃ v, env.undelegatePoolSubmit = Except.ok v) := by
  cases h1 : env.delegateAccountInfo with
  | error e =>
    simp [completePoolResolution, svcDelegatePool, h1, submits, stepOrder]
  | ok a1 =>
  cases h2 : env.delegateSubmit with
  | error e =>
    simp [completePoolResolution, svcDelegatePool, h1, h2, submits, stepOrder]
  | ok s1 =>
  cases h3 : env.resolveAuth with
  | error e =>
    simp [completePoolResolution, svcDelegatePool, svcResolvePool,
      h1, h2, h3, submits, stepOrder]
  | ok a2 =>
  cases h4 : env.resolveSubmit with
  | error e =>
    simp [completePoolResolution, svcDelegatePool, svcResolvePool,
      h1, h2, h3, h4, submits, stepOrder]
  | ok s2 =>
  cases h5 : env.calcAuth with
  | error e =>
    simp [completePoolResolution, svcDelegatePool, svcResolvePool,
      svcBatchCalculateWeights, h1, h2, h3, h4, h5, submits, stepOrder]
  | ok a3 =>
  cases h6 : env.calcSubmit with
  | error e =>
    simp [completePoolResolution, svcDelegatePool, svcResolvePool,
      svcBatchCalculateWeights, h1, h2, h3, h4, h5, h6, submits, stepOrder]
  | ok s3 =>
  cases h7 : env.undelegateBetsAuth with
  | error e =>
    simp [completePoolResolution, svcDelegatePool, svcResolvePool,
      svcBatchCalculateWeights, svcBatchUndelegateBets,
      h1, h2, h3, h4, h5, h6, h7, submits, stepOrder]
  | ok a4 =>
  cases h8 : env.undelegateBetsSubmit with
  | error e =>
    simp [completePoolResolution, svcDelegatePool, svcResolvePool,
      svcBatchCalculateWeights, svcBatchUndelegateBets,
      h1, h2, h3, h4, h5, h6, h7, h8, submits, stepOrder]
  | ok s4 =>
  cases h9 : env.undelegatePoolAuth with
  | error e =>
    simp [completePoolResolution, svcDelegatePool, svcResolvePool,
      svcBatchCalculateWeights, svcBatchUndelegateBets, svcUndelegatePool,
      h1, h2, h3, h4, h5, h6, h7, h8, h9, submits, stepOrder]
  | ok a5 =>
  cases h10 : env.undelegatePoolSubmit with
  | error e =>
    simp [completePoolResolution, svcDelegatePool, svcResolvePool,
      svcBatchCalculateWeights, svcBatchUndelegateBets, svcUndelegatePool,
      h1, h2, h3, h4, h5, h6, h7, h8, h9, h10, submits, stepOrder]
  | ok s5 =>
  cases h11 : env.finalizeProtocolFetch with
  | error e =>
    simp [completePoolResolution, svcDelegatePool, svcResolvePool,
      svcBatchCalculateWeights, svcBatchUndelegateBets, svcUndelegatePool,
      svcFinalizeWeights, h1, h2, h3, h4, h5, h6, h7, h8, h9, h10, h11,
      submits, stepOrder]
  | ok pr =>
  cases h12 : env.finalizePoolFetch with
  | error e =>
    simp [completePoolResolution, svcDelegatePool, svcResolvePool,
      svcBatchCalculateWeights, svcBatchUndelegateBets, svcUndelegatePool,
      svcFinalizeWeights, h1, h2, h3, h4, h5, h6, h7, h8, h9, h10, h11, h12,
      submits, stepOrder]
  | ok po =>
  cases h13 : env.finalizeAta with
  | error e =>
    simp [completePoolResolution, svcDelegatePool, svcResolvePool,
      svcBatchCalculateWeights, svcBatchUndelegateBets, svcUndelegatePool,
      svcFinalizeWeights, h1, h2, h3, h4, h5, h6, h7, h8, h9, h10, h11, h12,
      h13, submits, stepOrder]
  | ok at1 =>
  cases h14 : env.finalizeSubmit with
  | error e =>
    simp [completePoolResolution, svcDelegatePool, svcResolvePool,
      svcBatchCalculateWeights, svcBatchUndelegateBets, svcUndelegatePool,
      svcFinalizeWeights, h1, h2, h3, h4, h5, h6, h7, h8, h9, h10, h11, h12,
      h13, h14, submits, stepOrder]
  | ok s6 =>
    simp [completePoolResolution, svcDelegatePool, svcResolvePool,
      svcBatchCalculateWeights, svcBatchUndelegateBets, svcUndelegatePool,
      svcFinalizeWeights, h1, h2, h3, h4, h5, h6, h7, h8, h9, h10, h11, h12,
      h13, h14, submits, stepOrder]

/-- Witness for C1: in the all-success environment the flow returns
successfully and the submit trace is exactly the six steps in order. -/
theorem completePoolResolution_step_order_witness :
    submits (completePoolResolution envAllOk 1 42 [] "mint").1 = stepOrder :=
  (completePoolResolution_step_order envAllOk 1 42 [] "mint").2.1
    ⟨⟨"sigDelegate", "sigResolve", "sigCalc", "sigUndelegateBets",
      "sigUndelegatePool", "sigFinalize"⟩, rfl⟩

/-- C4: if the pool-resolution entry point is invoked for a pool that is not
found, whose end time has not yet passed, or that is already resolved, the
request is rejected synchronously: the result is an error, no external call
is issued, and the mirror store is unchanged. -/
theorem resolvePool_validation_rejects_synchronously
    (reqId : String) (outcome : Option Int) (db : Mirror) (nowMs : Nat)
    (env : ChainEnv)
    (h : poolFindById db reqId = none ∨
      ∃ p, poolFindById db reqId = some p ∧
        (p.end_time * 1000 > nowMs ∨ p.is_resolved = true)) :
    (∃ e, (ctrlResolvePool reqId outcome db nowMs env).1 = Except.error e) ∧
    (ctrlResolvePool reqId outcome db nowMs env).2.1 = db ∧
    (ctrlResolvePool reqId outcome db nowMs env).2.2 = [] := by
  cases outcome with
  | none => exact ⟨⟨_, rfl⟩, rfl, rfl⟩
  | some out =>
    rcases h with hnone | ⟨p, hp, hcond⟩
    · simp [ctrlResolvePool, hnone]
    · rcases hcond with hend | hres
      · simp [ctrlResolvePool, hp, hend]
      · by_cases hend : p.end_time * 1000 > nowMs
        · simp [ctrlResolvePool, hp, hend]
        · simp [ctrlResolvePool, hp, hend, hres]

/-- Witness for C4: a concrete already-resolved pool is rejected with no
external calls and no mirror mutation. -/
theorem resolvePool_validation_rejects_synchronously_witness :
    (∃ e, (ctrlResolvePool "p1" (some 7)
        ⟨[{ poolFx with is_resolved := true }], []⟩ 1000000 envAllOk).1
      = Except.error e) ∧
    (ctrlResolvePool "p1" (some 7)
        ⟨[{ poolFx with is_resolved := true }], []⟩ 1000000 envAllOk).2.1
      = ⟨[{ poolFx with is_resolved := true }], []⟩ ∧
    (ctrlResolvePool "p1" (some 7)
        ⟨[{ poolFx with is_resolved := true }], []⟩ 1000000 envAllOk).2.2
      = [] :=
  resolvePool_validation_rejects_synchronously "p1" (some 7)
    ⟨[{ poolFx with is_resolved := true }], []⟩ 1000000 envAllOk
    (Or.inr ⟨{ poolFx with is_resolved := true }, by decide, Or.inr rfl⟩)

/-- Helper: the claim update keeps the row id. -/
lemma claimRewardRow_id (r : Nat) (tx : Option String) (n : Nat) (b : MirrorBet) :
    (claimRewardRow r tx n b).id = b.id := by
  unfold claimRewardRow
  by_cases h : jsStrTruthy tx <;> simp [h]

/-- Helper: the claim update keeps the wallet. -/
lemma claimRewardRow_user_wallet (r : Nat) (tx : Option String) (n : Nat)
    (b : MirrorBet) : (claimRewardRow r tx n b).user_wallet = b.user_wallet := by
  unfold claimRewardRow
  by_cases h : jsStrTruthy tx <;> simp [h]

/-- Helper: the claim update sets the status to claimed. -/
lemma claimRewardRow_status (r : Nat) (tx : Option String) (n : Nat)
    (b : MirrorBet) : (claimRewardRow r tx n b).status = BetStatus.claimed := by
  unfold claimRewardRow
  by_cases h : jsStrTruthy tx <;> simp [h]

/-- Helper: the claim update stores exactly the supplied reward. -/
lemma claimRewardRow_reward (r : Nat) (tx : Option String) (n : Nat)
    (b : MirrorBet) : (claimRewardRow r tx n b).reward = some r := by
  unfold claimRewardRow
  by_cases h : jsStrTruthy tx <;> simp [h]

/-- Helper: the claim update keeps the calculated weight. -/
lemma claimRewardRow_weight (r : Nat) (tx : Option String) (n : Nat)
    (b : MirrorBet) : (claimRewardRow r tx n b).calculated_weight = b.calculated_weight := by
  unfold claimRewardRow
  by_cases h : jsStrTruthy tx <;> simp [h]

/-- Helper: the claim update keeps the deposit. -/
lemma claimRewardRow_deposit (r : Nat) (tx : Option String) (n : Nat)
    (b : MirrorBet) : (claimRewardRow r tx n b).deposit = b.deposit := by
  unfold claimRewardRow
  by_cases h : jsStrTruthy tx <;> simp [h]

/-- Helper: `predClaimReward` returns the updated row and leaves it at the
found position, both for the returned row and for a later lookup. -/
lemma predClaimReward_find (db : Mirror) (id : String) (r : Nat)
    (tx : Option String) (n : Nat) (bet : MirrorBet)
    (hfind : predFindById db id = some bet) :
    (predClaimReward db id r tx n).2 = some (claimRewardRow r tx n bet) ∧
    predFindById (predClaimReward db id r tx n).1 id
      = some (claimRewardRow r tx n bet) := by
  have hid : bet.id = id := by
    have := List.find?_some hfind
    simpa using this
  have hcomp :
      ((fun b : MirrorBet => decide (b.id = id)) ∘
        (fun b => if b.id = id then claimRewardRow r tx n b else b))
      = fun b : MirrorBet => decide (b.id = id) := by
    funext b
    by_cases hb : b.id = id <;> simp [hb, claimRewardRow_id]
  have hrows :
      (db.predictions.map (fun b =>
        if b.id = id then claimRewardRow r tx n b else b)).find?
          (fun b => b.id = id)
      = some (claimRewardRow r tx n bet) := by
    rw [List.find?_map, hcomp]
    unfold predFindById at hfind
    rw [hfind]
    simp [hid]
  constructor
  · simpa [predClaimReward] using hrows
  · simpa [predClaimReward, predFindById] using hrows

/-- C5: for every bet, the calculated-to-claimed transition succeeds exactly
once: with the bet's mirrored status equal to calculated the claim succeeds
and sets the status to claimed; a second claim attempt on the same bet id is
rejected as already claimed, and the rejected attempt leaves the mirror store
(in particular the bet's reward and status) unchanged. -/
theorem claimReward_exactly_once
    (betId uw tx : String) (amt : Option Nat) (db : Mirror) (nowMs : Nat)
    (bet : MirrorBet)
    (hfind : predFindById db betId = some bet)
    (hstat : bet.status = BetStatus.calculated)
    (hauth : bet.user_wallet = uw)
    (huw : uw ≠ "") (htx : tx ≠ "") :
    (∃ b, (ctrlClaimReward betId ⟨some uw, some tx, amt⟩ db nowMs).1
        = Except.ok b ∧ b.status = BetStatus.claimed) ∧
    (ctrlClaimReward betId ⟨some uw, some tx, amt⟩
        (ctrlClaimReward betId ⟨some uw, some tx, amt⟩ db nowMs).2 nowMs).1
      = Except.error ⟨"Reward already claimed", 400⟩ ∧
    (ctrlClaimReward betId ⟨some uw, some tx, amt⟩
        (ctrlClaimReward betId ⟨some uw, some tx, amt⟩ db nowMs).2 nowMs).2
      = (ctrlClaimReward betId ⟨some uw, some tx, amt⟩ db nowMs).2 := by
  have hne : bet.status ≠ BetStatus.claimed := by simp [hstat]
  obtain ⟨hret, hfind1⟩ :=
    predClaimReward_find db betId (jsOrZero amt) (some tx) nowMs bet hfind
  have hrun1 :
      ctrlClaimReward betId ⟨some uw, some tx, amt⟩ db nowMs
      = (Except.ok (claimRewardRow (jsOrZero amt) (some tx) nowMs bet),
         (predClaimReward db betId (jsOrZero amt) (some tx) nowMs).1) := by
    simp only [ctrlClaimReward, hfind, hauth, hstat, huw, htx]
    simp [hfind, hauth, hstat, huw, htx, hret]
    cases hpc : predClaimReward db betId (jsOrZero amt) (some tx) nowMs with
    | mk a b =>
      rw [hpc] at hret
      simp at hret
      simp [hret]
  refine ⟨⟨claimRewardRow (jsOrZero amt) (some tx) nowMs bet, ?_, ?_⟩, ?_, ?_⟩
  · rw [hrun1]
  · exact claimRewardRow_status _ _ _ _
  · rw [hrun1]
    simp only [ctrlClaimReward, hfind1]
    simp [huw, htx, claimRewardRow_user_wallet, hauth, claimRewardRow_status]
  · rw [hrun1]
    simp only [ctrlClaimReward, hfind1]
    simp [huw, htx, claimRewardRow_user_wallet, hauth, claimRewardRow_status]

/-- Witness for C5: a concrete calculated bet is claimed once and the repeat
claim is rejected as already claimed with the store unchanged. -/
theorem claimReward_exactly_once_witness :
    (∃ b, (ctrlClaimReward "b1" ⟨some "walletA", some "txSig", some 250⟩
        ⟨[poolFx], [{ betFx with status := .calculated }]⟩ 1000000).1
        = Except.ok b ∧ b.status = BetStatus.claimed) ∧
    (ctrlClaimReward "b1" ⟨some "walletA", some "txSig", some 250⟩
        (ctrlClaimReward "b1" ⟨some "walletA", some "txSig", some 250⟩
          ⟨[poolFx], [{ betFx with status := .calculated }]⟩ 1000000).2 1000000).1
      = Except.error ⟨"Reward already claimed", 400⟩ ∧
    (ctrlClaimReward "b1" ⟨some "walletA", some "txSig", some 250⟩
        (ctrlClaimReward "b1" ⟨some "walletA", some "txSig", some 250⟩
          ⟨[poolFx], [{ betFx with status := .calculated }]⟩ 1000000).2 1000000).2
      = (ctrlClaimReward "b1" ⟨some "walletA", some "txSig", some 250⟩
          ⟨[poolFx], [{ betFx with status := .calculated }]⟩ 1000000).2 :=
  claimReward_exactly_once "b1" "walletA" "txSig" (some 250)
    ⟨[poolFx], [{ betFx with status := .calculated }]⟩ 1000000
    { betFx with status := .calculated }
    (by decide) rfl rfl (by decide) (by decide)

/-- C9: when a claim request succeeds, the reward persisted on the bet equals
the client-supplied rewardAmount field (defaulting to 0 when absent); the
stored reward is independent of the bet's calculated weight and deposit,
which are carried over unchanged whatever their values. -/
theorem claimReward_stores_client_amount
    (betId uw tx : String) (amt : Option Nat) (db : Mirror) (nowMs : Nat)
    (bet : MirrorBet)
    (hfind : predFindById db betId = some bet)
    (hstat : bet.status = BetStatus.calculated)
    (hauth : bet.user_wallet = uw)
    (huw : uw ≠ "") (htx : tx ≠ "") :
    ∃ b, (ctrlClaimReward betId ⟨some uw, some tx, amt⟩ db nowMs).1
        = Except.ok b ∧
      b.reward = some (jsOrZero amt) ∧
      b.calculated_weight = bet.calculated_weight ∧
      b.deposit = bet.deposit := by
  obtain ⟨hret, hfind1⟩ :=
    predClaimReward_find db betId (jsOrZero amt) (some tx) nowMs bet hfind
  refine ⟨claimRewardRow (jsOrZero amt) (some tx) nowMs bet, ?_, ?_, ?_, ?_⟩
  · simp only [ctrlClaimReward, hfind, hauth, hstat, huw, htx]
    simp [hfind, hauth, hstat, huw, htx]
    cases hpc : predClaimReward db betId (jsOrZero amt) (some tx) nowMs with
    | mk a b =>
      rw [hpc] at hret
      simp at hret
      simp [hret]
  · exact claimRewardRow_reward _ _ _ _
  · exact claimRewardRow_weight _ _ _ _
  · exact claimRewardRow_deposit _ _ _ _

/-- Witness for C9: with rewardAmount absent the stored reward is 0 even
though the bet has a non-zero calculated weight and deposit. -/
theorem claimReward_stores_client_amount_witness :
    ∃ b, (ctrlClaimReward "b1" ⟨some "walletA", some "txSig", none⟩
        ⟨[poolFx], [{ betFx with status := .calculated, calculated_weight := "777" }]⟩
        1000000).1 = Except.ok b ∧
      b.reward = some (jsOrZero none) ∧
      b.calculated_weight
        = ({ betFx with status := .calculated, calculated_weight := "777" } : MirrorBet).calculated_weight ∧
      b.deposit = ({ betFx with status := .calculated, calculated_weight := "777" } : MirrorBet).deposit :=
  claimReward_stores_client_amount "b1" "walletA" "txSig" none
    ⟨[poolFx], [{ betFx with status := .calculated, calculated_weight := "777" }]⟩
    1000000 { betFx with status := .calculated, calculated_weight := "777" }
    (by decide) rfl rfl (by decide) (by decide)

/-- C6: when a pool is created, the mirror row is inserted only after the
ledger has confirmed the create operation: if any on-chain step of the create
fails the mirror is unchanged and an error is returned, and on success the one
inserted row carries the ledger-assigned pool id (the fetched protocol's
totalPools counter), not a mirror-generated id. -/
theorem createPool_mirror_after_ledger
    (req : CreatePoolReq) (db : Mirror) (nowMs : Nat) (env : CreateEnv)
    (freshId : String) :
    ((∃ e, (svcCreatePool env authorityBytes).2 = Except.error e) →
      (ctrlCreatePool req db nowMs env freshId).2.1 = db ∧
      ∃ err, (ctrlCreatePool req db nowMs env freshId).1 = Except.error err) ∧
    (∀ row, (ctrlCreatePool req db nowMs env freshId).1 = Except.ok row →
      ∃ proto sig, env.protocolFetch = Except.ok proto ∧
        env.createSubmit = Except.ok sig ∧
        row.pool_id = proto.totalPools ∧
        (ctrlCreatePool req db nowMs env freshId).2.1
          = ⟨db.pools ++ [row], db.predictions⟩) := by
  unfold ctrlCreatePool
  cases hp : env.protocolFetch with
  | error e =>
    simp only [svcCreatePool, hp]
    split_ifs <;> simp
  | ok proto =>
    cases ha : env.ata with
    | error e =>
      simp only [svcCreatePool, hp, ha]
      split_ifs <;> simp
    | ok ata =>
      cases hc : env.createSubmit with
      | error e =>
        simp only [svcCreatePool, hp, ha, hc]
        split_ifs <;> simp
      | ok sig =>
        simp only [svcCreatePool, hp, ha, hc]
        split_ifs <;> simp

/-- Witness for C6, failing leg: a rejected on-chain create leaves the mirror
unchanged and surfaces an error (concrete instance). -/
theorem createPool_mirror_after_ledger_witness :
    (ctrlCreatePool
        ⟨some "BTC pool", none, some 1000000, some 2000000, none, none,
          some 0, some 100, "adminKey"⟩
        ⟨[], []⟩ 500000 ⟨.ok rawProtocolA, .ok "ata", .error "RejectedByLedger"⟩
        "row1").2.1 = ⟨[], []⟩ ∧
    ∃ err, (ctrlCreatePool
        ⟨some "BTC pool", none, some 1000000, some 2000000, none, none,
          some 0, some 100, "adminKey"⟩
        ⟨[], []⟩ 500000 ⟨.ok rawProtocolA, .ok "ata", .error "RejectedByLedger"⟩
        "row1").1 = Except.error err :=
  (createPool_mirror_after_ledger
      ⟨some "BTC pool", none, some 1000000, some 2000000, none, none,
        some 0, some 100, "adminKey"⟩
      ⟨[], []⟩ 500000 ⟨.ok rawProtocolA, .ok "ata", .error "RejectedByLedger"⟩
      "row1").1 ⟨"RejectedByLedger", rfl⟩

/-- C8: account-handle derivation is a deterministic, pure, total function:
same owning identity and numeric pool id always yield the same
(handle, nonce) pair, and a pair exists for every input. -/
theorem getPoolPDA_deterministic_total (a b : List Nat) (p q : Nat)
    (ha : a = b) (hp : p = q) :
    getPoolPDA a p = getPoolPDA b q ∧
    ∃ handle nonce, getPoolPDA a p = (handle, nonce) := by
  subst ha
  subst hp
  exact ⟨rfl, ⟨_, _, rfl⟩⟩

/-- Witness for C8: the derivation evaluates to the same concrete pair on two
calls with the same concrete inputs. -/
theorem getPoolPDA_deterministic_total_witness :
    getPoolPDA authorityBytes 4 = getPoolPDA authorityBytes 4 ∧
    ∃ handle nonce, getPoolPDA authorityBytes 4 = (handle, nonce) :=
  getPoolPDA_deterministic_total authorityBytes authorityBytes 4 4 rfl rfl

/-- C10: the on-chain read operations getProtocol, getPool and getBet are
total functions into an optional view: every failure, whatever its cause, is
returned as null, so two different failure causes are indistinguishable to the
caller, every successful fetch decodes to a non-null view, and the protocol
controller treats any null as non-existence (404 Protocol not initialized). -/
theorem onchain_reads_never_throw :
    (∀ e, getProtocol (Except.error e) = none) ∧
    (∀ e, getPoolView (Except.error e) = none) ∧
    (∀ e, getBetView (Except.error e) = none) ∧
    (∀ eNotFound eNetwork,
      getPoolView (Except.error eNotFound) = getPoolView (Except.error eNetwork)) ∧
    (∀ d, ∃ v, getProtocol (Except.ok d) = some v) ∧
    (∀ d, ∃ v, getPoolView (Except.ok d) = some v) ∧
    (∀ d, ∃ v, getBetView (Except.ok d) = some v) ∧
    (∀ e, ctrlGetProtocolState (Except.error e)
      = Except.error ⟨"Protocol not initialized", 404⟩) :=
  ⟨fun _ => rfl, fun _ => rfl, fun _ => rfl, fun _ _ => rfl,
   fun _ => ⟨_, rfl⟩, fun _ => ⟨_, rfl⟩, fun _ => ⟨_, rfl⟩, fun _ => rfl⟩

/-- Helper: the bet-status mirror write never touches the pools table. -/
lemma foldl_predUpdateStatus_pools (st : BetStatus) (n : Nat)
    (L : List MirrorBet) (d : Mirror) :
    (L.foldl (fun d0 pr => predUpdateStatus d0 pr.id st n) d).pools = d.pools := by
  induction L generalizing d with
  | nil => rfl
  | cons pr L ih =>
    rw [List.foldl_cons, ih]
    rfl

/-- Helper: looking a pool up after `updateResolution` returns the updated
row, provided the lookup found that row before. -/
lemma poolFindById_updateResolution (db : Mirror) (reqId : String)
    (pool : MirrorPool) (hfp : poolFindById db reqId = some pool)
    (target : Int) (status : String) (nowMs : Nat) :
    poolFindById (poolUpdateResolution db pool.id target status nowMs) reqId
      = some (updateResolutionRow target status nowMs pool) := by
  have hid : pool.id = reqId := by
    have := List.find?_some hfp
    simpa using this
  have hcomp :
      ((fun p : MirrorPool => decide (p.id = reqId)) ∘
        (fun p => if p.id = pool.id then updateResolutionRow target status nowMs p else p))
      = fun p : MirrorPool => decide (p.id = reqId) := by
    funext p
    by_cases hb : p.id = pool.id <;> simp [hb, updateResolutionRow]
  unfold poolFindById poolUpdateResolution
  rw [List.find?_map, hcomp]
  unfold poolFindById at hfp
  rw [hfp]
  simp

/-- Helper: shape of a successful run of the resolve-pool entry point: the
pool was found, its preconditions held, the saga succeeded, and the returned
mirror is the post-saga bulk update of the pool row and the pool's bets. -/
lemma ctrlResolvePool_ok_shape (reqId : String) (outcome : Int) (db : Mirror)
    (nowMs : Nat) (env : ChainEnv)
    (h : (ctrlResolvePool reqId (some outcome) db nowMs env).1 = Except.ok ()) :
    ∃ pool t, poolFindById db reqId = some pool ∧
      ¬ pool.end_time * 1000 > nowMs ∧ pool.is_resolved = false ∧
      ctrlResolvePool reqId (some outcome) db nowMs env
        = (Except.ok (),
           (predFindByPoolId db pool.pool_id).foldl
             (fun d pr => predUpdateStatus d pr.id BetStatus.calculated nowMs)
             (poolUpdateResolution db pool.id outcome "resolved" nowMs), t) := by
  cases hfp : poolFindById db reqId with
  | none => simp [ctrlResolvePool, hfp] at h
  | some pool =>
    by_cases hend : pool.end_time * 1000 > nowMs
    · simp [ctrlResolvePool, hfp, hend] at h
    · by_cases hres : pool.is_resolved
      · simp [ctrlResolvePool, hfp, hend, hres] at h
      · cases hsaga : completePoolResolution env pool.pool_id outcome
          (((predFindByPoolId db pool.pool_id).filter
            (fun p => p.bet_pubkey.length > 0)).map (fun p => p.bet_pubkey))
          pool.token_mint with
        | mk t r =>
          cases r with
          | error e => simp [ctrlResolvePool, hfp, hend, hres, hsaga] at h
          | ok sigs =>
            refine ⟨pool, t, rfl, hend, by simpa using hres, ?_⟩
            simp [ctrlResolvePool, hfp, hend, hres, hsaga]

/-- Counterexample for C2: with the expired unresolved pool 1, a first
invocation of the entry point halts at the resolve step after the delegate
submit was confirmed, persists nothing, and a second invocation re-submits
the already-confirmed delegate step; moreover the successful second run
re-submits finalize even though the pool snapshot fetched inside
finalizeWeights already shows weightFinalized == true. -/
theorem runResolution_duplicate_submit_cex :
    envHaltAtResolve.delegateSubmit = Except.ok "sigDelegate" ∧
    ExtCall.submit .delegatePool 1 ∈
      (ctrlResolvePool "p1" (some 42) dbFx1 1000000 envHaltAtResolve).2.2 ∧
    (ctrlResolvePool "p1" (some 42) dbFx1 1000000 envHaltAtResolve).2.1 = dbFx1 ∧
    ExtCall.submit .delegatePool 1 ∈
      (ctrlResolvePool "p1" (some 42)
        (ctrlResolvePool "p1" (some 42) dbFx1 1000000 envHaltAtResolve).2.1
        1000000 envAllOk).2.2 ∧
    envAllOk.finalizePoolFetch = Except.ok rawPoolFinalized ∧
    rawPoolFinalized.weightFinalized = true ∧
    ExtCall.submit .finalizeWeights 1 ∈
      (ctrlResolvePool "p1" (some 42)
        (ctrlResolvePool "p1" (some 42) dbFx1 1000000 envHaltAtResolve).2.1
        1000000 envAllOk).2.2 := by
  decide

/-- C2 as amended: re-invoking the entry point never duplicates a submit only
in the case where the first invocation fully succeeded, and then only because
the mirror-level is_resolved guard rejects the second call synchronously with
no external call at all; no external state is consulted before re-issuing
(after a halted first run every step is re-submitted from the beginning, and
finalizeWeights submits regardless of the fetched weightFinalized flag). -/
theorem runResolution_second_call_after_success
    (reqId : String) (outcome : Int) (db : Mirror) (nowMs : Nat)
    (env env2 : ChainEnv)
    (h : (ctrlResolvePool reqId (some outcome) db nowMs env).1 = Except.ok ()) :
    (ctrlResolvePool reqId (some outcome)
        (ctrlResolvePool reqId (some outcome) db nowMs env).2.1 nowMs env2).1
      = Except.error ⟨"Pool already resolved", 400⟩ ∧
    (ctrlResolvePool reqId (some outcome)
        (ctrlResolvePool reqId (some outcome) db nowMs env).2.1 nowMs env2).2.2
      = [] ∧
    (ctrlResolvePool reqId (some outcome)
        (ctrlResolvePool reqId (some outcome) db nowMs env).2.1 nowMs env2).2.1
      = (ctrlResolvePool reqId (some outcome) db nowMs env).2.1 := by
  obtain ⟨pool, t, hfp, hend, hres, hrun⟩ :=
    ctrlResolvePool_ok_shape reqId outcome db nowMs env h
  rw [hrun]
  have hfind2 : poolFindById
      ((predFindByPoolId db pool.pool_id).foldl
        (fun d pr => predUpdateStatus d pr.id BetStatus.calculated nowMs)
        (poolUpdateResolution db pool.id outcome "resolved" nowMs)) reqId
      = some (updateResolutionRow outcome "resolved" nowMs pool) := by
    unfold poolFindById
    rw [foldl_predUpdateStatus_pools]
    exact poolFindById_updateResolution db reqId pool hfp outcome "resolved" nowMs
  simp [ctrlResolvePool, hfind2, updateResolutionRow, hend]

/-- Witness for C2's amended theorem: after a concrete fully successful run,
the second call is rejected with no external calls and no mirror change. -/
theorem runResolution_second_call_after_success_witness :
    (ctrlResolvePool "p1" (some 42)
        (ctrlResolvePool "p1" (some 42) dbFx1 1000000 envAllOk).2.1
        1000000 envAllOk).1
      = Except.error ⟨"Pool already resolved", 400⟩ ∧
    (ctrlResolvePool "p1" (some 42)
        (ctrlResolvePool "p1" (some 42) dbFx1 1000000 envAllOk).2.1
        1000000 envAllOk).2.2 = [] ∧
    (ctrlResolvePool "p1" (some 42)
        (ctrlResolvePool "p1" (some 42) dbFx1 1000000 envAllOk).2.1
        1000000 envAllOk).2.1
      = (ctrlResolvePool "p1" (some 42) dbFx1 1000000 envAllOk).2.1 :=
  runResolution_second_call_after_success "p1" 42 dbFx1 1000000
    envAllOk envAllOk (by decide)

/-- Helper: the submit trace of any saga run is one of the seven prefixes of
the canonical step order. -/
lemma completePoolResolution_submits_prefix
    (env : ChainEnv) (pid : Nat) (out : Int) (bets : List String) (mint : String) :
    submits (completePoolResolution env pid out bets mint).1 ∈
      [stepOrder.take 0, stepOrder.take 1, stepOrder.take 2, stepOrder.take 3,
       stepOrder.take 4, stepOrder.take 5, stepOrder] := by
  cases h1 : env.delegateAccountInfo with
  | error e =>
    simp [completePoolResolution, svcDelegatePool, h1, submits, stepOrder]
  | ok a1 =>
  cases h2 : env.delegateSubmit with
  | error e =>
    simp [completePoolResolution, svcDelegatePool, h1, h2, submits, stepOrder]
  | ok s1 =>
  cases h3 : env.resolveAuth with
  | error e =>
    simp [completePoolResolution, svcDelegatePool, svcResolvePool,
      h1, h2, h3, submits, stepOrder]
  | ok a2 =>
  cases h4 : env.resolveSubmit with
  | error e =>
    simp [completePoolResolution, svcDelegatePool, svcResolvePool,
      h1, h2, h3, h4, submits, stepOrder]
  | ok s2 =>
  cases h5 : env.calcAuth with
  | error e =>
    simp [completePoolResolution, svcDelegatePool, svcResolvePool,
      svcBatchCalculateWeights, h1, h2, h3, h4, h5, submits, stepOrder]
  | ok a3 =>
  cases h6 : env.calcSubmit with
  | error e =>
    simp [completePoolResolution, svcDelegatePool, svcResolvePool,
      svcBatchCalculateWeights, h1, h2, h3, h4, h5, h6, submits, stepOrder]
  | ok s3 =>
  cases h7 : env.undelegateBetsAuth with
  | error e =>
    simp [completePoolResolution, svcDelegatePool, svcResolvePool,
      svcBatchCalculateWeights, svcBatchUndelegateBets,
      h1, h2, h3, h4, h5, h6, h7, submits, stepOrder]
  | ok a4 =>
  cases h8 : env.undelegateBetsSubmit with
  | error e =>
    simp [completePoolResolution, svcDelegatePool, svcResolvePool,
      svcBatchCalculateWeights, svcBatchUndelegateBets,
      h1, h2, h3, h4, h5, h6, h7, h8, submits, stepOrder]
  | ok s4 =>
  cases h9 : env.undelegatePoolAuth with
  | error e =>
    simp [completePoolResolution, svcDelegatePool, svcResolvePool,
      svcBatchCalculateWeights, svcBatchUndelegateBets, svcUndelegatePool,
      h1, h2, h3, h4, h5, h6, h7, h8, h9, submits, stepOrder]
  | ok a5 =>
  cases h10 : env.undelegatePoolSubmit with
  | error e =>
    simp [completePoolResolution, svcDelegatePool, svcResolvePool,
      svcBatchCalculateWeights, svcBatchUndelegateBets, svcUndelegatePool,
      h1, h2, h3, h4, h5, h6, h7, h8, h9, h10, submits, stepOrder]
  | ok s5 =>
  cases h11 : env.finalizeProtocolFetch with
  | error e =>
    simp [completePoolResolution, svcDelegatePool, svcResolvePool,
      svcBatchCalculateWeights, svcBatchUndelegateBets, svcUndelegatePool,
      svcFinalizeWeights, h1, h2, h3, h4, h5, h6, h7, h8, h9, h10, h11,
      submits, stepOrder]
  | ok pr =>
  cases h12 : env.finalizePoolFetch with
  | error e =>
    simp [completePoolResolution, svcDelegatePool, svcResolvePool,
      svcBatchCalculateWeights, svcBatchUndelegateBets, svcUndelegatePool,
      svcFinalizeWeights, h1, h2, h3, h4, h5, h6, h7, h8, h9, h10, h11, h12,
      submits, stepOrder]
  | ok po =>
  cases h13 : env.finalizeAta with
  | error e =>
    simp [completePoolResolution, svcDelegatePool, svcResolvePool,
      svcBatchCalculateWeights, svcBatchUndelegateBets, svcUndelegatePool,
      svcFinalizeWeights, h1, h2, h3, h4, h5, h6, h7, h8, h9, h10, h11, h12,
      h13, submits, stepOrder]
  | ok at1 =>
  cases h14 : env.finalizeSubmit with
  | error e =>
    simp [completePoolResolution, svcDelegatePool, svcResolvePool,
      svcBatchCalculateWeights, svcBatchUndelegateBets, svcUndelegatePool,
      svcFinalizeWeights, h1, h2, h3, h4, h5, h6, h7, h8, h9, h10, h11, h12,
      h13, h14, submits, stepOrder]
  | ok s6 =>
    simp [completePoolResolution, svcDelegatePool, svcResolvePool,
      svcBatchCalculateWeights, svcBatchUndelegateBets, svcUndelegatePool,
      svcFinalizeWeights, h1, h2, h3, h4, h5, h6, h7, h8, h9, h10, h11, h12,
      h13, h14, submits, stepOrder]

/-- Helper: a nonempty prefix of the step order starts at the delegate step. -/
lemma head_of_prefix (l : List Step)
    (hmem : l ∈ [stepOrder.take 0, stepOrder.take 1, stepOrder.take 2,
      stepOrder.take 3, stepOrder.take 4, stepOrder.take 5, stepOrder])
    (s : Step) (hs : s ∈ l) : l.head? = some Step.delegatePool := by
  simp only [List.mem_cons, List.not_mem_nil, or_false] at hmem
  rcases hmem with h | h | h | h | h | h | h <;> subst h <;>
    simp_all [stepOrder]

/-- Counterexample for C3: a first run of the entry point halts at the
weight-calculation step with delegate pool and resolve already externally
confirmed; nothing is persisted to the mirror, and a fresh run does not
resume at the third step: it re-submits both already-confirmed steps. -/
theorem runResolution_no_resume_cex :
    envHaltAtCalc.delegateSubmit = Except.ok "sigDelegate" ∧
    envHaltAtCalc.resolveSubmit = Except.ok "sigResolve" ∧
    ExtCall.submit .delegatePool 1 ∈
      (ctrlResolvePool "p1" (some 42) dbFx1 1000000 envHaltAtCalc).2.2 ∧
    ExtCall.submit .resolvePool 1 ∈
      (ctrlResolvePool "p1" (some 42) dbFx1 1000000 envHaltAtCalc).2.2 ∧
    (ctrlResolvePool "p1" (some 42) dbFx1 1000000 envHaltAtCalc).2.1 = dbFx1 ∧
    ExtCall.submit .delegatePool 1 ∈
      (ctrlResolvePool "p1" (some 42)
        (ctrlResolvePool "p1" (some 42) dbFx1 1000000 envHaltAtCalc).2.1
        1000000 envAllOk).2.2 ∧
    ExtCall.submit .resolvePool 1 ∈
      (ctrlResolvePool "p1" (some 42)
        (ctrlResolvePool "p1" (some 42) dbFx1 1000000 envHaltAtCalc).2.1
        1000000 envAllOk).2.2 := by
  decide

/-- C3 as amended: the orchestrator persists no per-step resolution record:
whenever a run ends in an error the mirror store is exactly as before (only a
fully successful run writes anything), and any run that submits at all
submits the delegate-pool step first, i.e. a fresh run always starts from
step 1 rather than resuming at step k+1. -/
theorem runResolution_restarts_from_step_one
    (reqId : String) (outcome : Option Int) (db : Mirror) (nowMs : Nat)
    (env : ChainEnv) :
    ((∃ e, (ctrlResolvePool reqId outcome db nowMs env).1 = Except.error e) →
      (ctrlResolvePool reqId outcome db nowMs env).2.1 = db) ∧
    (∀ s, s ∈ submits (ctrlResolvePool reqId outcome db nowMs env).2.2 →
      (submits (ctrlResolvePool reqId outcome db nowMs env).2.2).head?
        = some Step.delegatePool) := by
  cases outcome with
  | none => exact ⟨fun _ => rfl, fun s hs => by simp [ctrlResolvePool, submits] at hs⟩
  | some out =>
    cases hfp : poolFindById db reqId with
    | none =>
      refine ⟨fun _ => by simp [ctrlResolvePool, hfp], fun s hs => ?_⟩
      simp [ctrlResolvePool, hfp, submits] at hs
    | some pool =>
      by_cases hend : pool.end_time * 1000 > nowMs
      · refine ⟨fun _ => by simp [ctrlResolvePool, hfp, hend], fun s hs => ?_⟩
        simp [ctrlResolvePool, hfp, hend, submits] at hs
      · by_cases hres : pool.is_resolved
        · refine ⟨fun _ => by simp [ctrlResolvePool, hfp, hend, hres], fun s hs => ?_⟩
          simp [ctrlResolvePool, hfp, hend, hres, submits] at hs
        · have hchar := completePoolResolution_submits_prefix env pool.pool_id out
            (((predFindByPoolId db pool.pool_id).filter
              (fun p => p.bet_pubkey.length > 0)).map (fun p => p.bet_pubkey))
            pool.token_mint
          cases hsaga : completePoolResolution env pool.pool_id out
            (((predFindByPoolId db pool.pool_id).filter
              (fun p => p.bet_pubkey.length > 0)).map (fun p => p.bet_pubkey))
            pool.token_mint with
          | mk t r =>
            rw [hsaga] at hchar
            cases r with
            | error e =>
              refine ⟨fun _ => by simp [ctrlResolvePool, hfp, hend, hres, hsaga],
                fun s hs => ?_⟩
              have htr : (ctrlResolvePool reqId (some out) db nowMs env).2.2 = t := by
                simp [ctrlResolvePool, hfp, hend, hres, hsaga]
              rw [htr] at hs ⊢
              exact head_of_prefix (submits t) hchar s hs
            | ok sigs =>
              refine ⟨fun he => ?_, fun s hs => ?_⟩
              · obtain ⟨e, he⟩ := he
                simp [ctrlResolvePool, hfp, hend, hres, hsaga] at he
              · have htr : (ctrlResolvePool reqId (some out) db nowMs env).2.2 = t := by
                  simp [ctrlResolvePool, hfp, hend, hres, hsaga]
                rw [htr] at hs ⊢
                exact head_of_prefix (submits t) hchar s hs

/-- Witness for C3's amended theorem: on a concrete halted run the mirror is
unchanged and the submit trace of the halted run starts with delegate pool. -/
theorem runResolution_restarts_from_step_one_witness :
    (ctrlResolvePool "p1" (some 42) dbFx1 1000000 envHaltAtCalc).2.1 = dbFx1 ∧
    (submits (ctrlResolvePool "p1" (some 42) dbFx1 1000000 envHaltAtCalc).2.2).head?
      = some Step.delegatePool :=
  ⟨(runResolution_restarts_from_step_one "p1" (some 42) dbFx1 1000000
      envHaltAtCalc).1
      ⟨⟨"Failed to resolve pool on-chain: NetworkUnavailable", 500⟩, by decide⟩,
   (runResolution_restarts_from_step_one "p1" (some 42) dbFx1 1000000
      envHaltAtCalc).2 Step.delegatePool (by decide)⟩

/-- Helper: the per-bet status loop equals a single conditional map over the
predictions table (setting the status is idempotent and id-preserving). -/
lemma foldl_predUpdateStatus_predictions (st : BetStatus) (n : Nat)
    (L : List MirrorBet) (d : Mirror) :
    (L.foldl (fun d0 pr => predUpdateStatus d0 pr.id st n) d).predictions
      = d.predictions.map (fun b =>
          if L.any (fun pr => pr.id = b.id) then setStatusRow st n b else b) := by
  induction L generalizing d with
  | nil =>
    simp
  | cons pr L ih =>
    rw [List.foldl_cons, ih]
    show (d.predictions.map
        (fun b => if b.id = pr.id then setStatusRow st n b else b)).map _ = _
    rw [List.map_map]
    refine List.map_congr_left ?_
    intro b _
    by_cases hb : b.id = pr.id
    · simp [Function.comp, hb, setStatusRow]
    · have hb2 : ¬ pr.id = b.id := fun hx => hb hx.symm
      simp [Function.comp, hb, hb2]

/-- C7 as amended: after a successful resolution run, the mirror update step
advances every bet of the pool to status calculated without consulting any
externally fetched per-bet state, leaves every bet's reward unchanged (no
reward is set), records a locally computed resolution timestamp on the pool
row, and never itself moves a bet to claimed (a bet ends claimed only if it
already was claimed). -/
theorem updateAfterResolution_all_bets
    (reqId : String) (outcome : Int) (db : Mirror) (nowMs : Nat)
    (env : ChainEnv)
    (h : (ctrlResolvePool reqId (some outcome) db nowMs env).1 = Except.ok ()) :
    (∃ pool, poolFindById db reqId = some pool ∧
      (∀ b ∈ (ctrlResolvePool reqId (some outcome) db nowMs env).2.1.predictions,
        b.pool_id = pool.pool_id → b.status = BetStatus.calculated)) ∧
    ((ctrlResolvePool reqId (some outcome) db nowMs env).2.1.predictions.map
        (fun b => b.reward)
      = db.predictions.map (fun b => b.reward)) ∧
    List.Forall₂ (fun b2 b0 =>
        b2.status = BetStatus.calculated ∨ b2.status = b0.status)
      (ctrlResolvePool reqId (some outcome) db nowMs env).2.1.predictions
      db.predictions ∧
    (∃ q, poolFindById (ctrlResolvePool reqId (some outcome) db nowMs env).2.1
        reqId = some q ∧
      q.is_resolved = true ∧ q.resolution_ts = nowMs / 1000) := by
  obtain ⟨pool, t, hfp, hend, hres, hrun⟩ :=
    ctrlResolvePool_ok_shape reqId outcome db nowMs env h
  rw [hrun]
  have hpreds :
      ((predFindByPoolId db pool.pool_id).foldl
        (fun d pr => predUpdateStatus d pr.id BetStatus.calculated nowMs)
        (poolUpdateResolution db pool.id outcome "resolved" nowMs)).predictions
      = db.predictions.map (fun b =>
          if (predFindByPoolId db pool.pool_id).any (fun pr => pr.id = b.id)
          then setStatusRow BetStatus.calculated nowMs b else b) := by
    rw [foldl_predUpdateStatus_predictions]
    rfl
  refine ⟨⟨pool, hfp, ?_⟩, ?_, ?_, ?_⟩
  · intro b hb hpid
    rw [hpreds] at hb
    obtain ⟨b0, hb0, hcond⟩ := List.mem_map.mp hb
    by_cases hany : (predFindByPoolId db pool.pool_id).any (fun pr => pr.id = b0.id)
    · simp only [hany, if_true] at hcond
      rw [← hcond]
      rfl
    · simp [hany] at hcond
      exfalso
      apply hany
      refine List.any_eq_true.mpr ⟨b0, ?_, by simp⟩
      unfold predFindByPoolId
      refine List.mem_filter.mpr ⟨hb0, ?_⟩
      have hpid0 : b0.pool_id = pool.pool_id := by rw [hcond]; exact hpid
      simp [hpid0]
  · rw [hpreds, List.map_map]
    refine List.map_congr_left ?_
    intro b _
    by_cases hany : (predFindByPoolId db pool.pool_id).any (fun pr => pr.id = b.id) <;>
      simp [Function.comp, hany, setStatusRow]
  · rw [hpreds]
    rw [List.forall₂_map_left_iff]
    rw [List.forall₂_same]
    intro b _
    by_cases hany : (predFindByPoolId db pool.pool_id).any (fun pr => pr.id = b.id)
    · left
      simp [hany, setStatusRow]
    · right
      simp [hany]
  · refine ⟨updateResolutionRow outcome "resolved" nowMs pool, ?_, rfl, rfl⟩
    unfold poolFindById
    rw [foldl_predUpdateStatus_pools]
    exact poolFindById_updateResolution db reqId pool hfp outcome "resolved" nowMs

/-- Witness for C7's amended theorem: the concrete successful run advances
the concrete bet and stamps the concrete pool. -/
theorem updateAfterResolution_all_bets_witness :
    (∃ pool, poolFindById dbFx1 "p1" = some pool ∧
      (∀ b ∈ (ctrlResolvePool "p1" (some 42) dbFx1 1000000 envAllOk).2.1.predictions,
        b.pool_id = pool.pool_id → b.status = BetStatus.calculated)) ∧
    ((ctrlResolvePool "p1" (some 42) dbFx1 1000000 envAllOk).2.1.predictions.map
        (fun b => b.reward)
      = dbFx1.predictions.map (fun b => b.reward)) ∧
    List.Forall₂ (fun b2 b0 =>
        b2.status = BetStatus.calculated ∨ b2.status = b0.status)
      (ctrlResolvePool "p1" (some 42) dbFx1 1000000 envAllOk).2.1.predictions
      dbFx1.predictions ∧
    (∃ q, poolFindById (ctrlResolvePool "p1" (some 42) dbFx1 1000000 envAllOk).2.1
        "p1" = some q ∧
      q.is_resolved = true ∧ q.resolution_ts = 1000000 / 1000) :=
  updateAfterResolution_all_bets "p1" 42 dbFx1 1000000 envAllOk (by decide)

/-- Counterexample for C7: in the concrete successful run, the one bet of the
pool is advanced to calculated although nothing about it was externally
fetched and its mirrored state shows no computed weight (weight "0", weight
flag false), and its reward is left unset instead of being set from a
computed-weight share. -/
theorem reconciler_ignores_external_state_cex :
    betFx.calculated_weight = "0" ∧
    betFx.is_weight_added = false ∧
    betFx.reward = none ∧
    Option.map (fun b => b.status)
      (predFindById (ctrlResolvePool "p1" (some 42) dbFx1 1000000 envAllOk).2.1 "b1")
      = some BetStatus.calculated ∧
    Option.map (fun b => b.reward)
      (predFindById (ctrlResolvePool "p1" (some 42) dbFx1 1000000 envAllOk).2.1 "b1")
      = some none := by
  decide

end Swiv
